import Mathlib

/-!
Verification of `docs/diagrams/high_level_architecture.py`.

The script is a single straight-line Python program that builds a matplotlib
figure (one background container rectangle, nine component rectangles with
text labels, twelve arrows, axis setup, a legend, a title and a caption) and
then writes it once to a fixed absolute path with `plt.savefig`.

The embedding below represents the script as the literal sequence of drawing
calls it performs, in source order.  Every numeric literal of the script is a
multiple of 0.01, so coordinates, sizes, displacements and alpha values are
represented exactly as integers in hundredths of a unit (`Coord`): the source
value 0.5 is the integer 50, 9.2 is 920, 12 is 1200, and so on.  Font sizes,
line widths, z-orders, the DPI and the column count are whole numbers in the
source and are kept as `Nat` unscaled.
-/

namespace MeAiDiagram

/-- A coordinate, size, displacement or alpha value, in hundredths of the
source unit (the source literal 0.5 becomes 50, 9.2 becomes 920). -/
abbrev Coord := Int

/-- A rectangle patch as constructed by `patches.Rectangle` in the source:
lower-left corner, width, height, alpha, face color, edge color, line width
and z-order. -/
structure Rect where
  x : Coord
  y : Coord
  w : Coord
  h : Coord
  alpha : Coord
  facecolor : String
  edgecolor : String
  linewidth : Nat
  zorder : Nat
deriving DecidableEq

/-- A text label as placed by `ax.text` in the source: anchor point, content,
font size, bold flag and the horizontal and vertical alignment. -/
structure TextLabel where
  x : Coord
  y : Coord
  content : String
  fontsize : Nat
  bold : Bool
  ha : String
  va : String
deriving DecidableEq

/-- An arrow as drawn by `ax.arrow` in the source: start point, displacement,
head geometry, fill color, edge color and z-order. -/
structure Arrow where
  x : Coord
  y : Coord
  dx : Coord
  dy : Coord
  head_width : Coord
  head_length : Coord
  fc : String
  ec : String
  zorder : Nat
deriving DecidableEq

/-- A legend entry as built by `patches.Patch` in the source: face color,
edge color and label text. -/
structure LegendEntry where
  facecolor : String
  edgecolor : String
  label : String
deriving DecidableEq

/-- One drawing call of the script, in the order the source performs them. -/
inductive RenderStep where
  | createFigure (w h : Coord)
  | setFacecolor (c : String)
  | addPatch (r : Rect)
  | text (t : TextLabel)
  | arrow (a : Arrow)
  | setXticks
  | setYticks
  | setXlim (lo hi : Coord)
  | setYlim (lo hi : Coord)
  | legend (entries : List LegendEntry) (loc : String) (anchorX anchorY : Coord)
      (fancybox shadow : Bool) (ncol : Nat)
  | title (s : String) (fontsize : Nat) (pad : Nat)
  | figtext (x y : Coord) (s : String) (fontsize : Nat) (ha : String)
  | tightLayout
  | savefig (path : String) (dpi : Nat) (bbox_inches : String)
deriving DecidableEq

/-- Source lines 12-17: the main system container rectangle. -/
def main_system : Rect := ⟨50, 50, 1100, 900, 20, "#e6f2ff", "#0066cc", 2, 1⟩

/-- Source lines 27-32: the Mirror core component rectangle. -/
def mirror : Rect := ⟨100, 600, 300, 200, 70, "#ffcccc", "#cc0000", 2, 2⟩

/-- Source lines 38-43: the Synthesis core component rectangle. -/
def synthesis : Rect := ⟨450, 600, 300, 200, 70, "#ffffcc", "#cccc00", 2, 2⟩

/-- Source lines 49-54: the Bridge core component rectangle. -/
def bridge : Rect := ⟨800, 600, 300, 200, 70, "#ccffcc", "#00cc00", 2, 2⟩

/-- Source lines 61-66: the Memory System supporting rectangle. -/
def memory : Rect := ⟨100, 350, 250, 150, 70, "#cce6ff", "#0066cc", 2, 2⟩

/-- Source lines 71-76: the Ritual Engine supporting rectangle. -/
def ritual : Rect := ⟨400, 350, 250, 150, 70, "#e6ccff", "#6600cc", 2, 2⟩

/-- Source lines 81-86: the MCP Client Interface supporting rectangle. -/
def mcp : Rect := ⟨700, 350, 250, 150, 70, "#ffccff", "#cc00cc", 2, 2⟩

/-- Source lines 91-96: the Voice Engine supporting rectangle. -/
def voice : Rect := ⟨100, 150, 250, 150, 70, "#ffe6cc", "#cc6600", 2, 2⟩

/-- Source lines 101-106: the Breath System supporting rectangle. -/
def breath : Rect := ⟨400, 150, 250, 150, 70, "#ccffe6", "#00cc66", 2, 2⟩

/-- Source lines 111-116: the Ethics Engine supporting rectangle. -/
def ethics : Rect := ⟨700, 150, 250, 150, 70, "#e6e6e6", "#666666", 2, 2⟩

/-- Source comment structure, line 25: the three core component rectangles
in source order. -/
def coreRects : List Rect := [mirror, synthesis, bridge]

/-- Source comment structure, line 59: the six supporting system rectangles
in source order. -/
def supportingRects : List Rect := [memory, ritual, mcp, voice, breath, ethics]

/-- Source lines 158-165: the legend entries. -/
def legend_elements : List LegendEntry :=
  [ ⟨"#ffcccc", "#cc0000", "Core - Mirror"⟩,
    ⟨"#ffffcc", "#cccc00", "Core - Synthesis"⟩,
    ⟨"#ccffcc", "#00cc00", "Core - Bridge"⟩,
    ⟨"#cce6ff", "#0066cc", "Supporting - Memory"⟩,
    ⟨"#e6ccff", "#6600cc", "Supporting - Ritual"⟩,
    ⟨"#e6e6e6", "#666666", "Supporting - Ethics"⟩ ]

/-- The hard-coded output path of line 176. -/
def outputPath : String := "/home/ubuntu/diagrams/high_level_architecture.png"

/-- The directory component of the output path. -/
def outputDir : String := "/home/ubuntu/diagrams"

/-- The whole script as its sequence of drawing calls, translated call by
call in source order (lines 6-176). -/
def render : List RenderStep :=
  [ .createFigure 1200 1000,
    .setFacecolor "#f5f5f5",
    .addPatch main_system,
    .text ⟨600, 920, "MeAi Companion System", 16, true, "center", "center"⟩,
    .addPatch mirror,
    .text ⟨250, 700, "Mirror", 14, true, "center", "center"⟩,
    .text ⟨250, 650, "User Understanding", 10, false, "center", "center"⟩,
    .addPatch synthesis,
    .text ⟨600, 700, "Synthesis", 14, true, "center", "center"⟩,
    .text ⟨600, 650, "State Management", 10, false, "center", "center"⟩,
    .addPatch bridge,
    .text ⟨950, 700, "Bridge", 14, true, "center", "center"⟩,
    .text ⟨950, 650, "External Connections", 10, false, "center", "center"⟩,
    .addPatch memory,
    .text ⟨225, 425, "Memory System", 12, true, "center", "center"⟩,
    .addPatch ritual,
    .text ⟨525, 425, "Ritual Engine", 12, true, "center", "center"⟩,
    .addPatch mcp,
    .text ⟨825, 425, "MCP Client Interface", 12, true, "center", "center"⟩,
    .addPatch voice,
    .text ⟨225, 225, "Voice Engine", 12, true, "center", "center"⟩,
    .addPatch breath,
    .text ⟨525, 225, "Breath System", 12, true, "center", "center"⟩,
    .addPatch ethics,
    .text ⟨825, 225, "Ethics Engine", 12, true, "center", "center"⟩,
    .arrow ⟨400, 700, 40, 0, 10, 10, "black", "black", 3⟩,
    .arrow ⟨450, 680, -40, 0, 10, 10, "black", "black", 3⟩,
    .arrow ⟨750, 700, 40, 0, 10, 10, "black", "black", 3⟩,
    .arrow ⟨800, 680, -40, 0, 10, 10, "black", "black", 3⟩,
    .arrow ⟨250, 600, 0, -90, 10, 10, "black", "black", 3⟩,
    .arrow ⟨230, 510, 0, 90, 10, 10, "black", "black", 3⟩,
    .arrow ⟨525, 600, 0, -90, 10, 10, "black", "black", 3⟩,
    .arrow ⟨825, 600, 0, -90, 10, 10, "black", "black", 3⟩,
    .arrow ⟨550, 600, -250, -350, 10, 10, "black", "black", 3⟩,
    .arrow ⟨525, 600, 0, -290, 10, 10, "black", "black", 3⟩,
    .arrow ⟨650, 600, 150, -350, 10, 10, "black", "black", 3⟩,
    .arrow ⟨825, 300, 0, 290, 10, 10, "black", "black", 3⟩,
    .setXticks,
    .setYticks,
    .setXlim 0 1200,
    .setYlim 0 1000,
    .legend legend_elements "upper center" 50 45 true true 2,
    .title "MeAi System Architecture" 18 20,
    .figtext 50 1 "High-level architecture showing core components and supporting systems" 10 "center",
    .tightLayout,
    .savefig outputPath 300 "tight" ]

/-- The rectangle patch carried by a step, when the step adds one. -/
def stepPatch : RenderStep → Option Rect
  | .addPatch r => some r
  | _ => none

/-- The text label carried by a step, when the step places one. -/
def stepText : RenderStep → Option TextLabel
  | .text t => some t
  | _ => none

/-- The arrow carried by a step, when the step draws one. -/
def stepArrow : RenderStep → Option Arrow
  | .arrow a => some a
  | _ => none

/-- The save parameters carried by a step, when the step writes a file. -/
def stepSave : RenderStep → Option (String × Nat × String)
  | .savefig p d b => some (p, d, b)
  | _ => none

/-- Whether a step performs a file write (only `savefig` does). -/
def isFileWrite : RenderStep → Bool
  | .savefig _ _ _ => true
  | _ => false

/-- All rectangle patches of a trace, in order. -/
def tracePatches (t : List RenderStep) : List Rect := t.filterMap stepPatch

/-- All text labels of a trace, in order. -/
def traceTexts (t : List RenderStep) : List TextLabel := t.filterMap stepText

/-- All arrows of a trace, in order. -/
def traceArrows (t : List RenderStep) : List Arrow := t.filterMap stepArrow

/-- All file writes of a trace, in order. -/
def traceSaves (t : List RenderStep) : List (String × Nat × String) :=
  t.filterMap stepSave

/-- The component rectangles: the patches drawn at z-order 2 (all nine
labeled components; the container is at z-order 1). -/
def componentRects : List Rect :=
  (tracePatches render).filter (fun r => r.zorder == 2)

/-- Whether the point `(px, py)` lies in the closed extent of `r`. -/
def Rect.containsPt (r : Rect) (px py : Coord) : Bool :=
  decide (r.x ≤ px) && decide (px ≤ r.x + r.w) &&
  decide (r.y ≤ py) && decide (py ≤ r.y + r.h)

/-- The text labels whose anchor lies inside the rectangle: the labels the
script draws on that component. -/
def assocTexts (r : Rect) : List TextLabel :=
  (traceTexts render).filter (fun t => r.containsPt t.x t.y)

/-- Whether the point lies on the bottom edge of the rectangle. -/
def Rect.onBottomEdge (r : Rect) (px py : Coord) : Bool :=
  decide (py = r.y) && decide (r.x ≤ px) && decide (px ≤ r.x + r.w)

/-- Whether the point lies on the top edge of the rectangle. -/
def Rect.onTopEdge (r : Rect) (px py : Coord) : Bool :=
  decide (py = r.y + r.h) && decide (r.x ≤ px) && decide (px ≤ r.x + r.w)

/-- Whether the point lies on the right edge of the rectangle. -/
def Rect.onRightEdge (r : Rect) (px py : Coord) : Bool :=
  decide (px = r.x + r.w) && decide (r.y ≤ py) && decide (py ≤ r.y + r.h)

/-- Whether the point lies on the left edge of the rectangle. -/
def Rect.onLeftEdge (r : Rect) (px py : Coord) : Bool :=
  decide (px = r.x) && decide (r.y ≤ py) && decide (py ≤ r.y + r.h)

/-- A minimal filesystem: the set of existing directories and a map from
paths to file contents (contents are abstract byte lists). -/
structure FS where
  dirs : List String
  files : List (String × List Nat)
deriving DecidableEq

/-- The content stored at a path, when a file exists there. -/
def FS.read (fs : FS) (path : String) : Option (List Nat) :=
  (fs.files.find? (fun kv => kv.1 == path)).map (fun kv => kv.2)

/-- Remove the file at a path, leaving directories untouched. -/
def FS.deleteFile (fs : FS) (path : String) : FS :=
  ⟨fs.dirs, fs.files.filter (fun kv => kv.1 != path)⟩

/-- The directory part of a path: everything before the last slash. -/
def parentDir (path : String) : String :=
  ⟨((path.data.reverse.dropWhile (· ≠ '/')).drop 1).reverse⟩

/-- Modelled from the spec: the file-write semantics of the final
`plt.savefig` call (matplotlib itself is not part of this repository).  The
spec states the write overwrites any existing file at the target path and
fails, propagating the underlying error, when the target directory does not
exist. -/
def writePng (fs : FS) (path : String) (content : List Nat) : Except String FS :=
  if parentDir path ∈ fs.dirs then
    .ok ⟨fs.dirs, (path, content) :: fs.files.filter (fun kv => kv.1 != path)⟩
  else
    .error "No such file or directory"

/-- Run a trace against a filesystem.  Only `savefig` touches the
filesystem; it writes `raster`, the byte rendering of the figure produced by
the plotting backend.  Every other step only mutates the in-memory figure. -/
def runSteps (raster : List Nat) : List RenderStep → FS → Except String FS
  | [], fs => .ok fs
  | .savefig path _ _ :: rest, fs =>
    match writePng fs path raster with
    | .ok fs2 => runSteps raster rest fs2
    | .error e => .error e
  | _ :: rest, fs => runSteps raster rest fs

/-- Execute the script: run its trace against the filesystem, where the
plotting backend `raster` turns the drawn figure into PNG bytes.  A fixed
environment and backend version is one fixed `raster` function. -/
def runRender (raster : List RenderStep → List Nat) (fs : FS) : Except String FS :=
  runSteps (raster render) render fs

/-- Source lines 6-9: create the drawing surface and set its background. -/
def setupPhase : List RenderStep :=
  [ .createFigure 1200 1000, .setFacecolor "#f5f5f5" ]

/-- Source lines 12-23: the background container rectangle and its title. -/
def containerPhase : List RenderStep :=
  [ .addPatch main_system,
    .text ⟨600, 920, "MeAi Companion System", 16, true, "center", "center"⟩ ]

/-- Source lines 27-118: the nine labeled component rectangles. -/
def componentsPhase : List RenderStep :=
  [ .addPatch mirror,
    .text ⟨250, 700, "Mirror", 14, true, "center", "center"⟩,
    .text ⟨250, 650, "User Understanding", 10, false, "center", "center"⟩,
    .addPatch synthesis,
    .text ⟨600, 700, "Synthesis", 14, true, "center", "center"⟩,
    .text ⟨600, 650, "State Management", 10, false, "center", "center"⟩,
    .addPatch bridge,
    .text ⟨950, 700, "Bridge", 14, true, "center", "center"⟩,
    .text ⟨950, 650, "External Connections", 10, false, "center", "center"⟩,
    .addPatch memory,
    .text ⟨225, 425, "Memory System", 12, true, "center", "center"⟩,
    .addPatch ritual,
    .text ⟨525, 425, "Ritual Engine", 12, true, "center", "center"⟩,
    .addPatch mcp,
    .text ⟨825, 425, "MCP Client Interface", 12, true, "center", "center"⟩,
    .addPatch voice,
    .text ⟨225, 225, "Voice Engine", 12, true, "center", "center"⟩,
    .addPatch breath,
    .text ⟨525, 225, "Breath System", 12, true, "center", "center"⟩,
    .addPatch ethics,
    .text ⟨825, 225, "Ethics Engine", 12, true, "center", "center"⟩ ]

/-- Source lines 122-149: the twelve relationship arrows. -/
def arrowsPhase : List RenderStep :=
  [ .arrow ⟨400, 700, 40, 0, 10, 10, "black", "black", 3⟩,
    .arrow ⟨450, 680, -40, 0, 10, 10, "black", "black", 3⟩,
    .arrow ⟨750, 700, 40, 0, 10, 10, "black", "black", 3⟩,
    .arrow ⟨800, 680, -40, 0, 10, 10, "black", "black", 3⟩,
    .arrow ⟨250, 600, 0, -90, 10, 10, "black", "black", 3⟩,
    .arrow ⟨230, 510, 0, 90, 10, 10, "black", "black", 3⟩,
    .arrow ⟨525, 600, 0, -90, 10, 10, "black", "black", 3⟩,
    .arrow ⟨825, 600, 0, -90, 10, 10, "black", "black", 3⟩,
    .arrow ⟨550, 600, -250, -350, 10, 10, "black", "black", 3⟩,
    .arrow ⟨525, 600, 0, -290, 10, 10, "black", "black", 3⟩,
    .arrow ⟨650, 600, 150, -350, 10, 10, "black", "black", 3⟩,
    .arrow ⟨825, 300, 0, 290, 10, 10, "black", "black", 3⟩ ]

/-- Source lines 152-155: strip the ticks and set the fixed view bounds. -/
def axesPhase : List RenderStep :=
  [ .setXticks, .setYticks, .setXlim 0 1200, .setYlim 0 1000 ]

/-- Source lines 158-167: the legend. -/
def legendPhase : List RenderStep :=
  [ .legend legend_elements "upper center" 50 45 true true 2 ]

/-- Source lines 170-172: the global title and the caption. -/
def titlePhase : List RenderStep :=
  [ .title "MeAi System Architecture" 18 20,
    .figtext 50 1 "High-level architecture showing core components and supporting systems" 10 "center" ]

/-- Source lines 175-176: layout tightening and the single file write. -/
def savePhase : List RenderStep :=
  [ .tightLayout, .savefig outputPath 300 "tight" ]

/-- The i-th arrow drawn by the script (a default arrow out of range). -/
def arrowAt (i : Nat) : Arrow :=
  (traceArrows render).getD i ⟨0, 0, 0, 0, 0, 0, "", "", 0⟩

/-- Running the trace on a filesystem that has the target directory writes
the rasterized bytes at the output path, overwriting any previous entry. -/
theorem runRender_ok (raster : List RenderStep → List Nat) (fs : FS)
    (h : outputDir ∈ fs.dirs) :
    runRender raster fs =
      .ok ⟨fs.dirs, (outputPath, raster render) ::
        fs.files.filter (fun kv => kv.1 != outputPath)⟩ := by
  have hp : parentDir outputPath = outputDir := by decide
  simp only [runRender, render, runSteps, writePng, hp]
  rw [if_pos h]

/-- Running the trace on a filesystem without the target directory fails
with the propagated file-write error. -/
theorem runRender_err (raster : List RenderStep → List Nat) (fs : FS)
    (h : outputDir ∉ fs.dirs) :
    runRender raster fs = .error "No such file or directory" := by
  have hp : parentDir outputPath = outputDir := by decide
  simp only [runRender, render, runSteps, writePng, hp]
  rw [if_neg h]

/-- Reading the path at the head of the file list returns its content. -/
theorem read_write_cons (dirs : List String) (files : List (String × List Nat))
    (p : String) (c : List Nat) :
    FS.read ⟨dirs, (p, c) :: files⟩ p = some c := by
  simp [FS.read]

/-- After deleting a path, reading it yields nothing. -/
theorem read_deleteFile (fs : FS) (p : String) :
    (fs.deleteFile p).read p = none := by
  unfold FS.deleteFile FS.read
  simp only [Option.map_eq_none']
  rw [List.find?_eq_none]
  intro kv hkv
  have hne := (List.mem_filter.mp hkv).2
  simp only [bne_iff_ne, ne_eq] at hne
  exact fun hc => hne (eq_of_beq hc)

/-- C2: the renderer draws exactly nine labeled component rectangles, three
core (Mirror, Synthesis, Bridge) and six supporting (Memory System, Ritual
Engine, MCP Client Interface, Voice Engine, Breath System, Ethics Engine),
each a fixed literal record (position, size, fill color, border color), the
core ones carrying two text labels and the supporting ones one. -/
theorem components_nine_labeled :
    componentRects = coreRects ++ supportingRects ∧
    coreRects = [mirror, synthesis, bridge] ∧
    supportingRects = [memory, ritual, mcp, voice, breath, ethics] ∧
    componentRects.length = 9 ∧
    coreRects.all (fun r => (assocTexts r).length == 2) ∧
    supportingRects.all (fun r => (assocTexts r).length == 1) := by
  refine ⟨by decide, rfl, rfl, by decide, by decide, by decide⟩

/-- C5: the trace is the fixed linear sequence of phases in source order
(surface setup, container and its title, the nine labeled rectangles, the
arrows, tick stripping and view bounds, legend, global title and caption,
file write), and the single file write is the last step of the trace. -/
theorem control_flow_linear :
    render = setupPhase ++ containerPhase ++ componentsPhase ++ arrowsPhase ++
      axesPhase ++ legendPhase ++ titlePhase ++ savePhase ∧
    render.filter isFileWrite = [.savefig outputPath 300 "tight"] ∧
    render.getLast? = some (.savefig outputPath 300 "tight") ∧
    (tracePatches componentsPhase).length = 9 ∧
    (traceArrows arrowsPhase).length = 12 := by
  refine ⟨by decide, by decide, by decide, by decide, by decide⟩

/-- C6: the view bounds are set to [0, 12] x [0, 10] (here in hundredths:
[0, 1200] x [0, 1000]) and every declared rectangle's extent lies within
those bounds. -/
theorem shapes_within_bounds :
    RenderStep.setXlim 0 1200 ∈ render ∧
    RenderStep.setYlim 0 1000 ∈ render ∧
    (tracePatches render).all (fun r =>
      decide (0 ≤ r.x) && decide (r.x + r.w ≤ 1200) &&
      decide (0 ≤ r.y) && decide (r.y + r.h ≤ 1000)) := by
  refine ⟨by decide, by decide, by decide⟩

/-- C8: the stacking order has exactly three layers: the container is the
only patch at z-order 1, all nine component rectangles sit at z-order 2, and
all twelve arrows sit at z-order 3. -/
theorem zorder_three_layers :
    (tracePatches render).filter (fun r => r.zorder == 1) = [main_system] ∧
    main_system.zorder = 1 ∧
    componentRects.all (fun r => r.zorder == 2) ∧
    componentRects.length = 9 ∧
    (traceArrows render).all (fun a => a.zorder == 3) ∧
    (traceArrows render).length = 12 := by
  refine ⟨by decide, rfl, by decide, by decide, by decide, by decide⟩

/-- C9: the legend has exactly six entries with the six fixed labels, each
entry's face and edge colors equal those of the corresponding drawn
rectangle (Mirror, Synthesis, Bridge, Memory, Ritual, Ethics in order), and
the MCP Client Interface, Voice Engine and Breath System rectangles have no
legend entry (no entry carries their colors). -/
theorem legend_matches_components :
    RenderStep.legend legend_elements "upper center" 50 45 true true 2 ∈ render ∧
    legend_elements.length = 6 ∧
    legend_elements.map (fun e => e.label) =
      ["Core - Mirror", "Core - Synthesis", "Core - Bridge",
       "Supporting - Memory", "Supporting - Ritual", "Supporting - Ethics"] ∧
    (legend_elements.zip [mirror, synthesis, bridge, memory, ritual, ethics]).all
      (fun p => p.1.facecolor == p.2.facecolor && p.1.edgecolor == p.2.edgecolor) ∧
    legend_elements.all (fun e =>
      e.facecolor != mcp.facecolor && e.facecolor != voice.facecolor &&
      e.facecolor != breath.facecolor) := by
  refine ⟨by decide, by decide, by decide, by decide, by decide⟩

/-- C10: exactly twelve arrows are drawn, all black with head width and head
length 0.1 (10 hundredths); arrows 0-1, 2-3 and 4-5 are opposite-direction
pairs joining Mirror-Synthesis, Synthesis-Bridge and Mirror-Memory, and the
remaining six are single-direction arrows: Synthesis to Ritual, Bridge to
MCP, Synthesis to Voice, Synthesis to Breath, Synthesis to Ethics, and one
upward arrow out of the top edge of Ethics. -/
theorem twelve_arrows :
    (traceArrows render).length = 12 ∧
    (traceArrows render).all (fun a =>
      a.fc == "black" && a.ec == "black" &&
      a.head_width == 10 && a.head_length == 10) ∧
    (mirror.onRightEdge (arrowAt 0).x (arrowAt 0).y ∧
      synthesis.onLeftEdge (arrowAt 1).x (arrowAt 1).y ∧
      (arrowAt 0).dx > 0 ∧ (arrowAt 1).dx = -(arrowAt 0).dx ∧
      (arrowAt 0).dy = 0 ∧ (arrowAt 1).dy = 0) ∧
    (synthesis.onRightEdge (arrowAt 2).x (arrowAt 2).y ∧
      bridge.onLeftEdge (arrowAt 3).x (arrowAt 3).y ∧
      (arrowAt 2).dx > 0 ∧ (arrowAt 3).dx = -(arrowAt 2).dx ∧
      (arrowAt 2).dy = 0 ∧ (arrowAt 3).dy = 0) ∧
    (mirror.onBottomEdge (arrowAt 4).x (arrowAt 4).y ∧
      (arrowAt 4).dy < 0 ∧ (arrowAt 4).dx = 0 ∧ (arrowAt 5).dx = 0 ∧
      (arrowAt 4).y + (arrowAt 4).dy - (arrowAt 4).head_length =
        memory.y + memory.h ∧
      (arrowAt 5).dy = -(arrowAt 4).dy ∧
      (arrowAt 5).y + (arrowAt 5).dy = mirror.y) ∧
    (synthesis.onBottomEdge (arrowAt 6).x (arrowAt 6).y ∧
      (arrowAt 6).y + (arrowAt 6).dy - (arrowAt 6).head_length =
        ritual.y + ritual.h) ∧
    (bridge.onBottomEdge (arrowAt 7).x (arrowAt 7).y ∧
      (arrowAt 7).y + (arrowAt 7).dy - (arrowAt 7).head_length =
        mcp.y + mcp.h) ∧
    (synthesis.onBottomEdge (arrowAt 8).x (arrowAt 8).y ∧
      voice.containsPt ((arrowAt 8).x + (arrowAt 8).dx)
        ((arrowAt 8).y + (arrowAt 8).dy)) ∧
    (synthesis.onBottomEdge (arrowAt 9).x (arrowAt 9).y ∧
      (arrowAt 9).y + (arrowAt 9).dy - (arrowAt 9).head_length =
        breath.y + breath.h) ∧
    (synthesis.onBottomEdge (arrowAt 10).x (arrowAt 10).y ∧
      ethics.containsPt ((arrowAt 10).x + (arrowAt 10).dx)
        ((arrowAt 10).y + (arrowAt 10).dy)) ∧
    (ethics.onTopEdge (arrowAt 11).x (arrowAt 11).y ∧ (arrowAt 11).dy > 0) := by
  decide

/-- C1: the script takes no runtime input (its trace is the closed constant
`render`), performs exactly one image write, at the fixed absolute path with
300 DPI and tight bounding box, from a figure created at 12 x 10 inches
(1200 x 1000 hundredths), and that write stores the rendered bytes at the
path, overwriting whatever was there (`fs` is arbitrary, so in particular it
may already hold a file at the path). -/
theorem render_writes_fixed_png (raster : List RenderStep → List Nat) (fs : FS)
    (h : outputDir ∈ fs.dirs) :
    traceSaves render = [(outputPath, 300, "tight")] ∧
    render.head? = some (.createFigure 1200 1000) ∧
    ∃ fs2, runRender raster fs = .ok fs2 ∧
      fs2.read outputPath = some (raster render) ∧ fs2.dirs = fs.dirs := by
  exact ⟨by decide, by decide,
    ⟨_, runRender_ok raster fs h, read_write_cons _ _ _ _, rfl⟩⟩

/-- Witness for C1 at a concrete backend and filesystem. -/
theorem render_writes_fixed_png_witness :
    traceSaves render = [(outputPath, 300, "tight")] ∧
    render.head? = some (.createFigure 1200 1000) ∧
    ∃ fs2, runRender (fun _ => [0]) ⟨[outputDir], []⟩ = .ok fs2 ∧
      fs2.read outputPath = some [0] ∧ fs2.dirs = [outputDir] :=
  render_writes_fixed_png (fun _ => [0]) ⟨[outputDir], []⟩ (by decide)

/-- C3: when the target directory is missing, the run terminates with the
propagated file-write error and no result filesystem (hence no output file,
partial or otherwise) is produced. -/
theorem missing_dir_errors (raster : List RenderStep → List Nat) (fs : FS)
    (h : outputDir ∉ fs.dirs) :
    runRender raster fs = .error "No such file or directory" ∧
    ∀ fs2, runRender raster fs ≠ .ok fs2 := by
  have he := runRender_err raster fs h
  refine ⟨he, fun fs2 hc => ?_⟩
  rw [he] at hc
  exact Except.noConfusion hc

/-- Witness for C3 on the empty filesystem. -/
theorem missing_dir_errors_witness :
    runRender (fun _ => [0]) ⟨[], []⟩ = .error "No such file or directory" ∧
    ∀ fs2, runRender (fun _ => [0]) ⟨[], []⟩ ≠ .ok fs2 :=
  missing_dir_errors (fun _ => [0]) ⟨[], []⟩ (by decide)

/-- C4: the run is deterministic: with the environment and backend fixed
(one `raster` function), any two runs succeed and store the very same bytes,
`raster render`, at the output path — in particular the two output files
have identical byte size.  Nothing else (prior filesystem contents included)
influences the written content. -/
theorem render_deterministic (raster : List RenderStep → List Nat)
    (fs1 fs2 : FS) (h1 : outputDir ∈ fs1.dirs) (h2 : outputDir ∈ fs2.dirs) :
    ∃ g1 g2, runRender raster fs1 = .ok g1 ∧ runRender raster fs2 = .ok g2 ∧
      g1.read outputPath = some (raster render) ∧
      g2.read outputPath = some (raster render) ∧
      (g1.read outputPath).map List.length =
        (g2.read outputPath).map List.length := by
  refine ⟨_, _, runRender_ok raster fs1 h1, runRender_ok raster fs2 h2,
    read_write_cons _ _ _ _, read_write_cons _ _ _ _, ?_⟩
  rw [read_write_cons, read_write_cons]

/-- Witness for C4: two filesystems, the second already holding a stale file
at the output path. -/
theorem render_deterministic_witness :
    ∃ g1 g2, runRender (fun _ => [7, 7]) ⟨[outputDir], []⟩ = .ok g1 ∧
      runRender (fun _ => [7, 7]) ⟨[outputDir], [(outputPath, [1, 2, 3])]⟩ = .ok g2 ∧
      g1.read outputPath = some [7, 7] ∧
      g2.read outputPath = some [7, 7] ∧
      (g1.read outputPath).map List.length =
        (g2.read outputPath).map List.length :=
  render_deterministic (fun _ => [7, 7]) ⟨[outputDir], []⟩
    ⟨[outputDir], [(outputPath, [1, 2, 3])]⟩ (by decide) (by decide)

/-- C7: regeneration is idempotent: after a successful run, deleting the
output file and running again recreates the file at the same path with the
same content as before. -/
theorem idempotent_regeneration (raster : List RenderStep → List Nat)
    (fs fs2 : FS) (h : runRender raster fs = .ok fs2) :
    ∃ fs3, runRender raster (fs2.deleteFile outputPath) = .ok fs3 ∧
      (fs2.deleteFile outputPath).read outputPath = none ∧
      fs3.read outputPath = fs2.read outputPath := by
  by_cases hd : outputDir ∈ fs.dirs
  · have hok := runRender_ok raster fs hd
    have heq : (⟨fs.dirs, (outputPath, raster render) ::
        fs.files.filter (fun kv => kv.1 != outputPath)⟩ : FS) = fs2 := by
      injection (hok.symm.trans h)
    subst heq
    refine ⟨_, runRender_ok raster _ hd, read_deleteFile _ _, ?_⟩
    rw [read_write_cons, read_write_cons]
  · have he := runRender_err raster fs hd
    rw [he] at h
    exact Except.noConfusion h

/-- Witness for C7 at a concrete backend and filesystem. -/
theorem idempotent_regeneration_witness :
    ∃ fs3, runRender (fun _ => [0])
        ((⟨[outputDir], [(outputPath, [0])]⟩ : FS).deleteFile outputPath) = .ok fs3 ∧
      ((⟨[outputDir], [(outputPath, [0])]⟩ : FS).deleteFile outputPath).read
        outputPath = none ∧
      fs3.read outputPath =
        (⟨[outputDir], [(outputPath, [0])]⟩ : FS).read outputPath :=
  idempotent_regeneration (fun _ => [0]) ⟨[outputDir], []⟩
    ⟨[outputDir], [(outputPath, [0])]⟩
    (runRender_ok (fun _ => [0]) ⟨[outputDir], []⟩ (by decide))

end MeAiDiagram
